import Mathlib

/-!
Shallow embedding of the shallot Lisp interpreter core (tokenizer, parser,
expression model, environment, evaluator and builtin registry), translated
from the Rust sources in src/: token.rs, expression.rs, atoms.rs,
environment.rs, builtins.rs and lib.rs.

Modelling conventions:
- Rust `f64` number payloads are modelled as `ℚ`.  Every numeral in this
  development is a small integer, on which `f64` arithmetic and comparison
  are exact, so no rounding behaviour is modelled (nor are NaN and the
  infinities, which no claim touches).
- `anyhow::Error` values are modelled as `String`: a leaf message, with
  `with_context` modelled as prefixing `ctx ++ ": "` to the message.
- `&mut Environment` parameters are modelled by returning the updated
  environment next to the `Except` result, so a failed call still reports
  the environment state it left behind, exactly as a `&mut` borrow would.
- Native function pointers inside `BuiltinFunction`/`BuiltinMacro` values
  cannot be stored inside an inductive type; the builtin atoms carry their
  registry name and calls are dispatched through the fixed registry of
  builtins.rs `set_environment`, matching the source's equality-by-name
  for builtins (atoms.rs `impl PartialEq for BuiltinFunction`).
- Evaluation recurses through a fuel parameter; running out of fuel yields
  the error "out of fuel", which models nontermination (the Rust code would
  recurse without bound).  Claims are stated with enough fuel.
-/

/-- A lexer token (src/token.rs lines 6-10): its text and the index of its
first character (Rust `chars().enumerate()`). -/
structure Token where
  value : String
  position : Nat

/-- The ASCII fragment of Rust `char::is_whitespace` (used at src/token.rs
line 20).  No input in this development contains a Unicode-only whitespace
code point, on which the two functions differ. -/
def rustIsWhitespace (c : Char) : Bool :=
  c == ' ' || c == '\t' || c == '\n' || c == '\r' || c == '\x0b' || c == '\x0c'

/-- The double-quoted-token loop of `TokenIterator::next` (src/token.rs lines
43-77): consumes characters after the opening quote, handling the escapes
`\"` and `\\`, up to and including the closing quote or the end of input.
Returns the accumulated token text and the remaining input. -/
def stringTokenLoop : List (Nat × Char) → String → String × List (Nat × Char)
  | [], acc => (acc, [])
  | (_, '\\') :: (_, '"') :: rest, acc => stringTokenLoop rest (acc.push '"')
  | (_, '\\') :: (_, '\\') :: rest, acc => stringTokenLoop rest (acc.push '\\')
  | (_, '\\') :: (_, c) :: rest, acc => stringTokenLoop rest ((acc.push '\\').push c)
  | (_, '\\') :: [], acc => (acc.push '\\', [])
  | (_, '"') :: rest, acc => (acc.push '"', rest)
  | (_, c) :: rest, acc => stringTokenLoop rest (acc.push c)

/-- Longest prefix of characters satisfying `p`, with the rest of the input:
models the `next_if` loops of src/token.rs (comment tokens, word tokens). -/
def takeRunChars (p : Char → Bool) : List (Nat × Char) → List Char × List (Nat × Char)
  | [] => ([], [])
  | (i, c) :: rest =>
    if p c then
      match takeRunChars p rest with
      | (cs, r) => (c :: cs, r)
    else ([], (i, c) :: rest)

/-- One step of `TokenIterator::next` (src/token.rs lines 19-99): skip
whitespace, then produce a single-character token for `(` or `)`, a comment
token for a `;` run up to (not including) the next newline, a string token
for a `"` run, or a maximal non-whitespace non-parenthesis word token.
Note that the comment run IS returned as a token, not discarded. -/
def nextToken (input : List (Nat × Char)) : Option (Token × List (Nat × Char)) :=
  match input.dropWhile (fun ic => rustIsWhitespace ic.2) with
  | [] => none
  | (i, c) :: rest =>
    if c == '(' || c == ')' then
      some ({ value := String.mk [c], position := i }, rest)
    else if c == ';' then
      match takeRunChars (fun d => d != '\n') ((i, c) :: rest) with
      | (cs, r) => some ({ value := String.mk cs, position := i }, r)
    else if c == '"' then
      match stringTokenLoop rest "\"" with
      | (s, r) => some ({ value := s, position := i }, r)
    else
      match takeRunChars (fun d => !(rustIsWhitespace d || d == '(' || d == ')')) ((i, c) :: rest) with
      | (cs, r) => some ({ value := String.mk cs, position := i }, r)

/-- Drains the token iterator into a list.  Each produced token consumes at
least one character, so `length + 1` steps of fuel always suffice. -/
def tokenizeGo : Nat → List (Nat × Char) → List Token
  | 0, _ => []
  | fuel+1, input =>
    match nextToken input with
    | none => []
    | some (t, rest) => t :: tokenizeGo fuel rest

/-- Pairs each character with its index, starting at `i`: models Rust
`chars().enumerate()` (src/token.rs line 104). -/
def enumerateFrom : Nat → List Char → List (Nat × Char)
  | _, [] => []
  | i, c :: cs => (i, c) :: enumerateFrom (i+1) cs

/-- `tokenize` (src/token.rs lines 102-105), drained to a list. -/
def tokenize (input : String) : List Token :=
  tokenizeGo (input.toList.length + 1) (enumerateFrom 0 input.toList)

/-- The Expression data model (src/expression.rs lines 84-93, src/lib.rs
lines 17-26): Symbol, Number, List, the two native builtin kinds, and the
user-defined Lambda and Macro closures.  The Rust `Macro` variant is named
`macr` here, after the builtins.rs constructor of the same meaning.
Builtin atoms carry their registry name (see the module comment). -/
inductive Expression where
  | symbol (name : String)
  | number (value : ℚ)
  | list (elements : List Expression)
  | builtinFunction (name : String)
  | builtinMacr (name : String)
  | lambda (parameters : List String) (value : Expression) (env : List (String × Expression))
  | macr (parameters : List String) (value : Expression) (env : List (String × Expression))

/-- An Environment (src/environment.rs lines 5-8) is a name-to-value map;
modelled as an association list read through `Environment.get`. -/
abbrev Environment := List (String × Expression)

/-- `Environment::get` (src/environment.rs lines 19-21): `HashMap::get`. -/
def Environment.get : Environment → String → Option Expression
  | [], _ => none
  | (k, v) :: rest, s => if k = s then some v else Environment.get rest s

/-- `Environment::set` (src/environment.rs lines 23-25): `HashMap::insert`,
insert-or-overwrite; the new binding shadows any earlier one for `get`. -/
def Environment.set (env : Environment) (s : String) (v : Expression) : Environment :=
  (s, v) :: env

/-- `Environment::clone` (the derived `Clone` of src/environment.rs line 5):
a deep value copy.  In this pure embedding a copy is the value itself;
"mutating" either copy builds a new value, leaving the other untouched. -/
def Environment.clone (env : Environment) : Environment := env

/-- The per-kind label used in diagnostics: `Expression::variant`
(src/lib.rs lines 128-138) and the `Atom::name` implementations of
src/atoms.rs, which agree on every variant. -/
def variantName : Expression → String
  | .symbol _ => "symbol"
  | .number _ => "number"
  | .list _ => "list"
  | .builtinFunction _ => "builtin function"
  | .builtinMacr _ => "builtin macro"
  | .lambda _ _ _ => "lambda"
  | .macr _ _ _ => "macro"

/-- `Display for Symbol` (src/atoms.rs lines 42-46): the name wrapped in
ANSI green. -/
def symbolDisplay (s : String) : String := "\x1b[0;32m" ++ s ++ "\x1b[0m"

/-- Rendering of a `ℚ` payload.  Rust renders the `f64` in decimal; every
number rendered in this development is an integer, where the two agree. -/
def ratDisplay (q : ℚ) : String :=
  if q.den = 1 then toString q.num else toString q.num ++ "/" ++ toString q.den

/-- `Display for Number` (src/atoms.rs lines 301-305): ANSI cyan. -/
def numberDisplay (q : ℚ) : String := "\x1b[0;36m" ++ ratDisplay q ++ "\x1b[0m"

mutual
/-- `Display for Expression` (src/lib.rs lines 28-55 and the per-atom
`Display` impls of src/atoms.rs). -/
def displayExpr : Expression → String
  | .symbol s => symbolDisplay s
  | .number q => numberDisplay q
  | .list es => "(" ++ String.intercalate " " (displayList es) ++ ")"
  | .builtinFunction n => "«builtin function " ++ n ++ "»"
  | .builtinMacr n => "«builtin macro " ++ n ++ "»"
  | .lambda ps body _ => "λ (" ++ String.intercalate " " (ps.map symbolDisplay) ++ ") " ++ displayExpr body
  | .macr ps body _ => "μ (" ++ String.intercalate " " (ps.map symbolDisplay) ++ ") " ++ displayExpr body

/-- Renders each element of a list of expressions. -/
def displayList : List Expression → List String
  | [] => []
  | e :: rest => displayExpr e :: displayList rest
end

mutual
/-- The derived `PartialEq for Expression` (src/expression.rs line 84,
src/lib.rs line 17); builtins compare by name (src/atoms.rs lines 108-112).
Closure environments are compared as association lists, where the Rust
`HashMap` equality is extensional; no claim compares closures. -/
def exprEq : Expression → Expression → Bool
  | .symbol a, .symbol b => a == b
  | .number a, .number b => a == b
  | .list a, .list b => exprListEq a b
  | .builtinFunction a, .builtinFunction b => a == b
  | .builtinMacr a, .builtinMacr b => a == b
  | .lambda p v e, .lambda q w f => p == q && exprEq v w && envEq e f
  | .macr p v e, .macr q w f => p == q && exprEq v w && envEq e f
  | _, _ => false

/-- Element-wise equality of expression lists. -/
def exprListEq : List Expression → List Expression → Bool
  | [], [] => true
  | a :: as1, b :: bs1 => exprEq a b && exprListEq as1 bs1
  | _, _ => false

/-- Entry-wise equality of environments. -/
def envEq : List (String × Expression) → List (String × Expression) → Bool
  | [], [] => true
  | (k, v) :: r1, (l, w) :: r2 => k == l && exprEq v w && envEq r1 r2
  | _, _ => false
end

/-- The default `is_truthy` of the `LispExpression` trait (src/expression.rs
lines 18-20): `self.as_list().map(|l| l.0.is_empty()).unwrap_or(false)`,
i.e. true exactly on a List whose element vector is empty. -/
def LispExpression.is_truthy : Expression → Bool
  | .list es => es.isEmpty
  | _ => false

/-- `Expression::is_truthy` (src/lib.rs lines 140-142):
`!matches!(self, Self::List(list) if list.is_empty())`. -/
def Expression.is_truthy : Expression → Bool
  | .list es => !es.isEmpty
  | _ => true

/-- Models `token.value.parse::<f64>()` (src/lib.rs line 118, src/atoms.rs
line 320) on integer literals, the only numerals occurring in this
development; fractional, exponent and non-finite literal forms accepted by
the Rust parser do not occur in any claim. -/
def numberFromToken (s : String) : Option ℚ :=
  match s.toList with
  | [] => none
  | '-' :: rest =>
    if !rest.isEmpty && rest.all Char.isDigit then
      some (-(Rat.ofInt (rest.foldl (fun acc c => acc * 10 + (c.toNat - 48)) 0 : Nat)))
    else none
  | cs =>
    if cs.all Char.isDigit then
      some (Rat.ofInt (cs.foldl (fun acc c => acc * 10 + (c.toNat - 48)) 0 : Nat))
    else none

/-- A bare token becomes a Number if its text parses as a float, otherwise a
Symbol (src/lib.rs lines 117-123, src/expression.rs lines 115-120). -/
def parseFromToken (t : Token) : Expression :=
  match numberFromToken t.value with
  | some q => .number q
  | none => .symbol t.value

/-- The name of the quote-prefix symbol, a single apostrophe. -/
def quoteName : String := "\x27"

/-- The quote-prefix symbol expression compared against during the parser's
rewrite (src/expression.rs line 45, src/lib.rs line 102). -/
def quoteExpr : Expression := .symbol quoteName

/-- Models `anyhow` `with_context` on the message of an error. -/
def ctxPrefix (ctx msg : String) : String := ctx ++ ": " ++ msg

/-- Applies `ctxPrefix` to the error of an `Except`. -/
def withCtxE {α : Type} (ctx : String) : Except String α → Except String α
  | .error m => .error (ctxPrefix ctx m)
  | .ok a => .ok a

/-- The quote-prefix rewrite loop run after a list's elements are collected
(src/expression.rs lines 41-54, src/lib.rs lines 99-111): left to right,
an element equal to the quote symbol is spliced with the immediately
following element into the 2-element sub-list `(quote, element)`; a quote
with nothing following it is the error "Trailing quote in input". -/
def quoteRewrite : List Expression → Except String (List Expression)
  | [] => .ok []
  | e :: rest =>
    if exprEq e quoteExpr then
      match rest with
      | [] => .error "Trailing quote in input"
      | nxt :: rest2 =>
        match quoteRewrite rest2 with
        | .error m => .error m
        | .ok es => .ok (.list [e, nxt] :: es)
    else
      match quoteRewrite rest with
      | .error m => .error m
      | .ok es => .ok (e :: es)

mutual
/-- `Expression::parse` (src/expression.rs lines 28-63, src/lib.rs lines
86-126): on `(`, collect elements up to the matching `)` and apply the
quote rewrite; a bare `)` is "Unexpected close bracket"; an empty stream is
"Ran out of tokens"; any other token parses via `parseFromToken`.  Returns
the parsed expression and the unconsumed suffix of the stream. -/
def parseF : Nat → List Token → Except String (Expression × List Token)
  | 0, _ => .error "out of fuel"
  | _+1, [] => .error "Ran out of tokens"
  | fuel+1, t :: rest =>
    if t.value = "(" then
      match parseListF fuel t.position rest with
      | .error m => .error m
      | .ok (elems, rest2) =>
        match quoteRewrite elems with
        | .error m => .error m
        | .ok es => .ok (.list es, rest2)
    else if t.value = ")" then
      .error ("Unexpected close bracket at " ++ toString t.position)
    else
      .ok (parseFromToken t, rest)

/-- The element-collection loop of `Expression::parse` (src/expression.rs
lines 34-40): while the next token is not `)`, parse one element (wrapping
failures with "While parsing list that began at <pos>"); then consume the
`)`.  An exhausted stream re-enters `parse` and fails there. -/
def parseListF : Nat → Nat → List Token → Except String (List Expression × List Token)
  | 0, _, _ => .error "out of fuel"
  | fuel+1, pos, t :: rest =>
    if t.value = ")" then .ok ([], rest)
    else
      match withCtxE ("While parsing list that began at " ++ toString pos) (parseF fuel (t :: rest)) with
      | .error m => .error m
      | .ok (e, rest2) =>
        match parseListF fuel pos rest2 with
        | .error m => .error m
        | .ok (es, rest3) => .ok (e :: es, rest3)
  | fuel+1, pos, [] =>
    match withCtxE ("While parsing list that began at " ++ toString pos) (parseF fuel []) with
    | .error m => .error m
    | .ok (e, rest2) =>
      match parseListF fuel pos rest2 with
      | .error m => .error m
      | .ok (es, rest3) => .ok (e :: es, rest3)
end

/-- Threads an environment-carrying result into a continuation: models `?`
on an expression computed against a `&mut Environment`. -/
def bindE {α β : Type} (r : Except String α × Environment)
    (k : α → Environment → Except String β × Environment) : Except String β × Environment :=
  match r with
  | (.error m, env) => (.error m, env)
  | (.ok a, env) => k a env

/-- Applies `ctxPrefix` to the error half of an environment-carrying result. -/
def withCtxR {α : Type} (ctx : String) (r : Except String α × Environment) :
    Except String α × Environment :=
  (withCtxE ctx r.1, r.2)

/-- The `TypeError` display (src/errors.rs lines 9-17). -/
def typeErrMsg (expected got : String) : String :=
  "Type error: expected " ++ expected ++ " and got " ++ got

/-- `expressions_to_homogeneous::<_, Number>` (src/builtins.rs lines 7-19):
every argument must be a Number, failure tagged with its 1-based index. -/
def numbersFromArgs : List Expression → Nat → Except String (List ℚ)
  | [], _ => .ok []
  | .number q :: rest, n =>
    match numbersFromArgs rest (n+1) with
    | .error m => .error m
    | .ok qs => .ok (q :: qs)
  | e :: _, n =>
    .error (ctxPrefix ("Argument number " ++ toString n ++ ": " ++ displayExpr e)
      (typeErrMsg "number" (variantName e)))

/-- `expressions_to_homogeneous::<_, Symbol>` (src/builtins.rs lines 7-19). -/
def symbolsFromArgs : List Expression → Nat → Except String (List String)
  | [], _ => .ok []
  | .symbol s :: rest, n =>
    match symbolsFromArgs rest (n+1) with
    | .error m => .error m
    | .ok ss => .ok (s :: ss)
  | e :: _, n =>
    .error (ctxPrefix ("Argument number " ++ toString n ++ ": " ++ displayExpr e)
      (typeErrMsg "symbol" (variantName e)))

/-- The adjacent-pairs scan of `le` (src/builtins.rs lines 28-32). -/
def pairwiseNonDec : ℚ → List ℚ → Bool
  | _, [] => true
  | a, b :: rest => if a > b then false else pairwiseNonDec b rest

/-- `le` (src/builtins.rs lines 21-34).  `E::null()` (absent from this
snapshot's trait) is modelled from the spec as the empty list, the falsy
value.  On zero arguments the Rust `0..len - 1` range subtraction panics. -/
def Builtins.le (args : List Expression) (env : Environment) :
    Except String Expression × Environment :=
  match withCtxE "Arguments to add are not all numbers" (numbersFromArgs args 1) with
  | .error m => (.error m, env)
  | .ok [] => (.error "panic: attempt to subtract with overflow", env)
  | .ok (q :: qs) =>
    if pairwiseNonDec q qs then (.ok (.number 1), env) else (.ok (.list []), env)

/-- `add` (src/builtins.rs lines 36-44): the sum of the arguments. -/
def Builtins.add (args : List Expression) (env : Environment) :
    Except String Expression × Environment :=
  match withCtxE "Arguments to add are not all numbers" (numbersFromArgs args 1) with
  | .error m => (.error m, env)
  | .ok qs => (.ok (.number (qs.foldl (· + ·) 0)), env)

/-- `sub` (src/builtins.rs lines 46-58): first minus the sum of the rest. -/
def Builtins.sub (args : List Expression) (env : Environment) :
    Except String Expression × Environment :=
  match withCtxE "Arguments to add are not all numbers" (numbersFromArgs args 1) with
  | .error m => (.error m, env)
  | .ok [] => (.error "Insufficient arguments to sub", env)
  | .ok (q :: qs) => (.ok (.number (q - qs.foldl (· + ·) 0)), env)

/-- `mul` (src/builtins.rs lines 60-68): the product of the arguments. -/
def Builtins.mul (args : List Expression) (env : Environment) :
    Except String Expression × Environment :=
  match withCtxE "Arguments to mul are not all numbers" (numbersFromArgs args 1) with
  | .error m => (.error m, env)
  | .ok qs => (.ok (.number (qs.foldl (· * ·) 1)), env)

/-- `div` (src/builtins.rs lines 70-82): first divided by the product of the
rest.  Rust `f64` division by zero yields an infinity, `ℚ` division yields
zero; no claim divides. -/
def Builtins.div (args : List Expression) (env : Environment) :
    Except String Expression × Environment :=
  match withCtxE "Arguments to add are not all numbers" (numbersFromArgs args 1) with
  | .error m => (.error m, env)
  | .ok [] => (.error "Insufficient arguments to div", env)
  | .ok (q :: qs) => (.ok (.number (q / qs.foldl (· * ·) 1)), env)

/-- The sequential-equality scan of `eq` (src/builtins.rs lines 89-95). -/
def allEqChain : Expression → List Expression → Bool
  | _, [] => true
  | last, e :: rest => if exprEq e last then allEqChain e rest else false

/-- `eq` (src/builtins.rs lines 84-100): truthy (Number 1) iff all arguments
are equal pairwise in sequence; truthy on zero or one arguments. -/
def Builtins.eq (args : List Expression) (env : Environment) :
    Except String Expression × Environment :=
  match args with
  | [] => (.ok (.number 1), env)
  | first :: rest =>
    if allEqChain first rest then (.ok (.number 1), env) else (.ok (.list []), env)

/-- `list` (src/builtins.rs lines 102-107): collects the (already evaluated)
arguments into a List. -/
def Builtins.list (args : List Expression) (env : Environment) :
    Except String Expression × Environment :=
  (.ok (.list args), env)

/-- `define` (src/builtins.rs lines 109-122): exactly two arguments, the
first a Symbol; binds the symbol to the value in the given environment and
returns the value just bound (read back through `get`).  Both checks happen
before the mutation. -/
def Builtins.define (args : List Expression) (env : Environment) :
    Except String Expression × Environment :=
  match args with
  | [a, b] =>
    match a with
    | .symbol s =>
      let env2 := Environment.set env s b
      match Environment.get env2 s with
      | some v => (.ok v, env2)
      | none => (.error "unreachable", env2)
    | _ =>
      (.error (ctxPrefix "First argument to define should be a symbol"
        (typeErrMsg "symbol" (variantName a))), env)
  | _ => (.error "Define requires two arguments", env)

/-- `quote` (src/builtins.rs lines 124-132): exactly one argument, returned
unevaluated. -/
def Builtins.quote (args : List Expression) (env : Environment) :
    Except String Expression × Environment :=
  match args with
  | [a] => (.ok a, env)
  | _ => (.error "Quote must be called on exactly one argument", env)

/-- `lambda` (src/builtins.rs lines 134-153): two arguments, the first a List
of Symbols; builds a Lambda closing over a clone of the caller env. -/
def Builtins.lambda (args : List Expression) (env : Environment) :
    Except String Expression × Environment :=
  match args with
  | [a, b] =>
    match a with
    | .list paramExprs =>
      match withCtxE "Parameter names need to all be symbols" (symbolsFromArgs paramExprs 1) with
      | .error m => (.error m, env)
      | .ok ps => (.ok (.lambda ps b (Environment.clone env)), env)
    | _ =>
      (.error (ctxPrefix "First argument to lambda construction must be a list"
        (typeErrMsg "list" (variantName a))), env)
  | _ => (.error "Lambdas must be constructed with exactly two arguments", env)

/-- `macr` (src/builtins.rs lines 155-174): as `lambda`, building a Macro. -/
def Builtins.macr (args : List Expression) (env : Environment) :
    Except String Expression × Environment :=
  match args with
  | [a, b] =>
    match a with
    | .list paramExprs =>
      match withCtxE "Parameter names need to all be symbols" (symbolsFromArgs paramExprs 1) with
      | .error m => (.error m, env)
      | .ok ps => (.ok (.macr ps b (Environment.clone env)), env)
    | _ =>
      (.error (ctxPrefix "First argument to macros construction must be a list"
        (typeErrMsg "list" (variantName a))), env)
  | _ => (.error "Macros must be constructed with exactly two arguments", env)

/-- The dispatch table for `BuiltinFunction` atoms, from `set_environment`
(src/builtins.rs lines 203-216); arguments have already been evaluated by
`BuiltinFunction::call`.  Names outside the registry never occur. -/
def applyBuiltinFunction (name : String) (args : List Expression) (env : Environment) :
    Except String Expression × Environment :=
  if name = "≤" then Builtins.le args env
  else if name = "+" then Builtins.add args env
  else if name = "*" then Builtins.mul args env
  else if name = "-" then Builtins.sub args env
  else if name = "/" then Builtins.div args env
  else if name = "list" then Builtins.list args env
  else if name = "=" then Builtins.eq args env
  else if name = "define" then Builtins.define args env
  else (.error ("unknown builtin function " ++ name), env)

/-- The argument-evaluation loop shared by `BuiltinFunction::call`
(src/atoms.rs lines 122-131) and `Lambda::call` (src/atoms.rs lines
203-211): evaluates each argument in order against the threaded caller
environment, tagging a failure with its 1-based index and display. -/
def evalArgsGo (ev : Expression → Environment → Except String Expression × Environment) :
    List Expression → Nat → Environment → Except String (List Expression) × Environment
  | [], _, env => (.ok [], env)
  | e :: rest, n, env =>
    match withCtxR ("Argument number " ++ toString n ++ ": " ++ displayExpr e) (ev e env) with
    | (.error m, env2) => (.error m, env2)
    | (.ok v, env2) =>
      match evalArgsGo ev rest (n+1) env2 with
      | (.error m, env3) => (.error m, env3)
      | (.ok vs, env3) => (.ok (v :: vs), env3)

/-- The parameter-binding loop of `Lambda::call`/`Macro::call` (src/atoms.rs
lines 216-218 and 266-268): sets each (parameter, argument) pair in turn. -/
def bindAll (env : Environment) (pairs : List (String × Expression)) : Environment :=
  pairs.foldl (fun e p => Environment.set e p.1 p.2) env

/-- `Lambda::call` (src/atoms.rs lines 202-229): evaluate all arguments
eagerly in the caller environment; more arguments than parameters is an
error; fewer returns a curried Lambda over a clone of the captured
environment holding the bindings made so far; exactly enough binds all
parameters into the clone and evaluates the body there, discarding the
call-local environment afterwards. -/
def lambdaCall (ev : Expression → Environment → Except String Expression × Environment)
    (ps : List String) (body : Expression) (cenv : Environment)
    (args : List Expression) (env : Environment) : Except String Expression × Environment :=
  match withCtxR ("Could not evaluate arguments to " ++ displayExpr (.lambda ps body cenv))
      (evalArgsGo ev args 1 env) with
  | (.error m, env2) => (.error m, env2)
  | (.ok vals, env2) =>
    if vals.length > ps.length then (.error "Too many arguments to lambda", env2)
    else
      let callEnv := bindAll (Environment.clone cenv) (ps.zip vals)
      if vals.length < ps.length then
        (.ok (.lambda (ps.drop vals.length) body callEnv), env2)
      else
        match ev body callEnv with
        | (r, _) => (r, env2)

/-- `Macro::call` (src/atoms.rs lines 261-282): same arity and currying
mechanics as Lambda, but the arguments are bound unevaluated; once
saturated, the body is evaluated in the macro environment to produce an
expansion, which is then evaluated in the original caller environment, that
second evaluation being the call's result. -/
def macrCall (ev : Expression → Environment → Except String Expression × Environment)
    (ps : List String) (body : Expression) (cenv : Environment)
    (args : List Expression) (env : Environment) : Except String Expression × Environment :=
  if args.length > ps.length then (.error "Too many arguments to lambda", env)
  else
    let macrEnv := bindAll (Environment.clone cenv) (ps.zip args)
    if args.length < ps.length then
      (.ok (.macr (ps.drop args.length) body macrEnv), env)
    else
      match withCtxR "Could not expand macro" (ev body macrEnv) with
      | (.error m, _) => (.error m, env)
      | (.ok expansion, _) => ev expansion env

/-- Rust `f64 as usize` on the guarded non-negative values used by
`List::call`: truncation, which on non-negative rationals is the floor. -/
def ratToUsize (q : ℚ) : Nat := (q.num / q.den).toNat

/-- The out-of-range message of `List::call` (src/atoms.rs lines 350-354). -/
def listCallMsgOob (len : Nat) (q : ℚ) : String :=
  "Cannot index array of length " ++ toString len ++ " at " ++ numberDisplay q

/-- `List::call` (src/atoms.rs lines 343-364): a List value is an indexer.
More than one argument is an error; the single argument must itself be a
Number (arguments reach `call` unevaluated); on a Number the range guard
`n < 0 || n > len - 1` is applied and the in-range element at the
truncated index is returned.  On zero arguments the Rust `arguments[0]`
panics.  The `ℚ` payload covers only the finite `f64` values, on which
this guard and the f64 one agree; the full f64 guard semantics of the
Number branch, including NaN (which fails both comparisons and indexes
at 0) and the infinities, is `listCallNum` below, of which the branch
here is the finite restriction (proved as a conjunct of the C10
theorem). -/
def listCall (elements : List Expression) (args : List Expression) (env : Environment) :
    Except String Expression × Environment :=
  if args.length > 1 then (.error "Cannot index array using more than one index", env)
  else
    match args with
    | [] => (.error "panic: index out of bounds", env)
    | a :: _ =>
      match a with
      | .number q =>
        if q < 0 ∨ q > (elements.length : ℚ) - 1 then (.error (listCallMsgOob elements.length q), env)
        else
          match elements.get? (ratToUsize q) with
          | some v => (.ok v, env)
          | none => (.error "panic: index out of bounds", env)
      | _ => (.error ("Can only index into list using numbers, not " ++ displayExpr a), env)

/-- The `f64` values relevant to the range guard of `List::call`
(src/atoms.rs line 349): the finite numbers (modelled exactly as `ℚ`),
the two infinities and NaN.  `Expression.number` carries only the finite
values; in the Rust program NaN also reaches `List::call`, e.g. because
`"NaN".parse::<f64>()` succeeds, so the guard is modelled over this type
and `listCall` is bridged to it on the finite values. -/
inductive RustF64 where
  | finite (q : ℚ)
  | posInf
  | negInf
  | nan

/-- Rust `f64` `<` (IEEE-754 `PartialOrd`): the usual order on ordered
values, false on every comparison involving NaN. -/
def RustF64.lt : RustF64 → RustF64 → Bool
  | .finite a, .finite b => a < b
  | .finite _, .posInf => true
  | .negInf, .finite _ => true
  | .negInf, .posInf => true
  | _, _ => false

/-- Rust `f64` `>`: the reversed `<` (also false whenever NaN is involved). -/
def RustF64.gt (a b : RustF64) : Bool := RustF64.lt b a

/-- Rust `f64` `<=`: the usual order on ordered values, false on every
comparison involving NaN — NaN lies in no range. -/
def RustF64.le : RustF64 → RustF64 → Bool
  | .finite a, .finite b => a ≤ b
  | .finite _, .posInf => true
  | .negInf, .finite _ => true
  | .negInf, .negInf => true
  | .negInf, .posInf => true
  | .posInf, .posInf => true
  | _, _ => false

/-- Rust `f64 as usize`: truncation toward zero, saturating at the
`usize` bounds, with NaN cast to 0.  A finite value above `usize::MAX`
cannot reach the cast in `List::call`: the range guard rejects it first. -/
def RustF64.toUsize : RustF64 → Nat
  | .finite q => if q < 0 then 0 else ratToUsize q
  | .posInf => 2 ^ 64 - 1
  | .negInf => 0
  | .nan => 0

/-- Rust `Display` of the guard values: finite numbers as `ratDisplay`,
and `inf`, `-inf`, `NaN` as Rust renders them. -/
def ratDisplayF : RustF64 → String
  | .finite q => ratDisplay q
  | .posInf => "inf"
  | .negInf => "-inf"
  | .nan => "NaN"

/-- `Display for Number` (src/atoms.rs lines 301-305) over the guard
values: ANSI cyan. -/
def numberDisplayF (n : RustF64) : String := "\x1b[0;36m" ++ ratDisplayF n ++ "\x1b[0m"

/-- The out-of-range message of `List::call` (src/atoms.rs lines 350-354)
over the guard values. -/
def listCallMsgOobF (len : Nat) (n : RustF64) : String :=
  "Cannot index array of length " ++ toString len ++ " at " ++ numberDisplayF n

/-- The Number branch of `List::call` (src/atoms.rs lines 348-357) over
the full `f64` model of the argument: the guard `n < 0 || n > len - 1`
uses the f64 comparisons, so both are false on NaN, which passes through
to `n as usize = 0` and indexes element 0; the infinities each satisfy
one comparison and error; on finite values this is exactly the Number
branch of `listCall`. -/
def listCallNum (elements : List Expression) (n : RustF64) (env : Environment) :
    Except String Expression × Environment :=
  if RustF64.lt n (.finite 0) || RustF64.gt n (.finite ((elements.length : ℚ) - 1)) then
    (.error (listCallMsgOobF elements.length n), env)
  else
    match elements.get? (RustF64.toUsize n) with
    | some v => (.ok v, env)
    | none => (.error "panic: index out of bounds", env)

/-- The condition/consequence loop of `cond` (src/builtins.rs lines 176-201),
structured over the argument pairs: evaluate each condition in order in the
caller environment; on the first truthy one, evaluate and return its
consequence; a trailing unpaired argument is the default, evaluated if no
condition was truthy; with no default the empty list is returned.  `i` is
the 1-based pair index used in context messages (the source misspelling
"evalutate" is kept). -/
def Builtins.condLoop (ev : Expression → Environment → Except String Expression × Environment)
    (tr : Expression → Bool) :
    List Expression → Nat → Environment → Except String Expression × Environment
  | [], _, env => (.ok (.list []), env)
  | [d], _, env => withCtxR "Could not evaluate default" (ev d env)
  | c :: q :: rest, i, env =>
    match withCtxR ("Could not evalutate condition number " ++ toString i) (ev c env) with
    | (.error m, env2) => (.error m, env2)
    | (.ok cv, env2) =>
      if tr cv then withCtxR ("Could not evaluate consequence number " ++ toString i) (ev q env2)
      else Builtins.condLoop ev tr rest (i+1) env2

/-- The dispatch table for `BuiltinMacro` atoms, from `set_environment`
(src/builtins.rs lines 203-216); `BuiltinMacro::call` (src/atoms.rs lines
169-171) passes the argument expressions through unevaluated. -/
def applyBuiltinMacr (ev : Expression → Environment → Except String Expression × Environment)
    (tr : Expression → Bool) (name : String) (args : List Expression) (env : Environment) :
    Except String Expression × Environment :=
  if name = "cond" then Builtins.condLoop ev tr args 1 env
  else if name = quoteName then Builtins.quote args env
  else if name = "λ" then Builtins.lambda args env
  else if name = "μ" then Builtins.macr args env
  else (.error ("unknown builtin macro " ++ name), env)

/-- The call dispatch of `LispExpression::eval` (src/expression.rs line 73),
`function.as_atom().call(rest, env)`: BuiltinFunction evaluates its
arguments first (src/atoms.rs lines 122-132); BuiltinMacro passes them
through; Lambda/Macro use their protocols; a List indexes; Symbol and
Number hit the default `Atom::call` error (src/atoms.rs lines 17-19). -/
def callF (ev : Expression → Environment → Except String Expression × Environment)
    (tr : Expression → Bool) (op : Expression) (args : List Expression) (env : Environment) :
    Except String Expression × Environment :=
  match op with
  | .builtinFunction name =>
    match withCtxR ("Could not evaluate arguments to " ++ displayExpr (.builtinFunction name))
        (evalArgsGo ev args 1 env) with
    | (.error m, env2) => (.error m, env2)
    | (.ok vals, env2) => applyBuiltinFunction name vals env2
  | .builtinMacr name => applyBuiltinMacr ev tr name args env
  | .lambda ps body cenv => lambdaCall ev ps body cenv args env
  | .macr ps body cenv => macrCall ev ps body cenv args env
  | .list elements => listCall elements args env
  | .symbol _ => (.error "Cannot call symbol as if it were a function", env)
  | .number _ => (.error "Cannot call number as if it were a function", env)

/-- `LispExpression::eval` (src/expression.rs lines 65-81, matching
src/lib.rs lines 144-168 on the cases the claims touch): a List evaluates
its head (an empty list or a failing head is wrapped with "Could not
evaluate head of list") and dispatches the call on the rest; a Symbol is
looked up, absent symbols failing with the unbound-variable error; every
other expression is self-evaluating.  `tr` is the truthiness function the
`cond` builtin consults (generic over the trait in the source). -/
def evalF (tr : Expression → Bool) : Nat → Expression → Environment →
    Except String Expression × Environment
  | 0, _, env => (.error "out of fuel", env)
  | fuel+1, e, env =>
    match e with
    | .list [] => (.error (ctxPrefix "Could not evaluate head of list" "Attempt to evaluate empty list"), env)
    | .list (h :: rest) =>
      match withCtxR "Could not evaluate head of list" (evalF tr fuel h env) with
      | (.error m, env2) => (.error m, env2)
      | (.ok op, env2) => callF (evalF tr fuel) tr op rest env2
    | .symbol s =>
      match Environment.get env s with
      | some v => (.ok v, env)
      | none => (.error ("Variable `" ++ symbolDisplay s ++ "` unbound"), env)
    | e2 => (.ok e2, env)

/-- The bindings installed by `set_environment` (src/builtins.rs lines
203-216), in source order. -/
def stdEnvPairs : List (String × Expression) :=
  [("≤", .builtinFunction "≤"), ("cond", .builtinMacr "cond"),
   ("+", .builtinFunction "+"), ("*", .builtinFunction "*"),
   ("-", .builtinFunction "-"), ("/", .builtinFunction "/"),
   ("list", .builtinFunction "list"), ("=", .builtinFunction "="),
   ("define", .builtinFunction "define"), (quoteName, .builtinMacr quoteName),
   ("λ", .builtinMacr "λ"), ("μ", .builtinMacr "μ")]

/-- The root environment after `set_environment` on an empty environment. -/
def stdEnv : Environment := stdEnvPairs.foldl (fun e p => Environment.set e p.1 p.2) []

/-- `evaluate` (src/lib.rs lines 207-217): tokenize, parse one expression
(failures wrapped with "Could not parse input <text>"), fail with "Extra
tokens in line" if tokens remain, then evaluate (failures wrapped with
"Could not evaluate input <text>"). -/
def evaluate (tr : Expression → Bool) (fuel : Nat) (input : String) (env : Environment) :
    Except String Expression × Environment :=
  match withCtxE ("Could not parse input " ++ input) (parseF fuel (tokenize input)) with
  | .error m => (.error m, env)
  | .ok (e, rest) =>
    if rest.isEmpty then
      match evalF tr fuel e env with
      | (.error m, env2) => (.error (ctxPrefix ("Could not evaluate input " ++ input) m), env2)
      | (.ok v, env2) => (.ok v, env2)
    else (.error "Extra tokens in line", env)

/-- True on the expressions that hit the self-evaluating catch-all arm of
`eval` (src/expression.rs line 79, src/lib.rs line 166): everything that is
neither a List nor a Symbol. -/
def isSelfEvaluating : Expression → Bool
  | .symbol _ => false
  | .list _ => false
  | _ => true

/-- True exactly on Symbol expressions (the shape accepted by `define`'s
`try_into_atom::<Symbol>`, src/builtins.rs line 117). -/
def isSymbolE : Expression → Bool
  | .symbol _ => true
  | _ => false

/-- True exactly on Number expressions (the shape accepted by `List::call`'s
`try_into_atom::<Number>`, src/atoms.rs line 348). -/
def isNumberE : Expression → Bool
  | .number _ => true
  | _ => false

/-- Helper: a successful argument-evaluation pass returns exactly one value
per argument expression. -/
theorem evalArgsGo_length (ev : Expression → Environment → Except String Expression × Environment) :
    ∀ (args : List Expression) (n : Nat) (env : Environment)
      (vals : List Expression) (env2 : Environment),
      evalArgsGo ev args n env = (.ok vals, env2) → vals.length = args.length := by
  intro args
  induction args with
  | nil =>
    intro n env vals env2 h
    simp only [evalArgsGo] at h
    cases h
    rfl
  | cons e rest ih =>
    intro n env vals env2 h
    simp only [evalArgsGo] at h
    rcases hev : ev e env with ⟨r, env3⟩
    rw [hev] at h
    cases r with
    | error m => simp [withCtxR, withCtxE] at h
    | ok v =>
      simp only [withCtxR, withCtxE] at h
      rcases hrec : evalArgsGo ev rest (n+1) env3 with ⟨r2, env4⟩
      rw [hrec] at h
      cases r2 with
      | error m => simp at h
      | ok vs =>
        simp at h
        rcases h with ⟨h1, _h2⟩
        rw [← h1]
        simp [ih (n+1) env3 vs env4 hrec]

/-- Claim C1 (code bug): the claim — and `Expression::is_truthy` of
src/lib.rs lines 140-142, proved in the first conjunct — make an expression
falsy exactly when it is the empty List; but the `LispExpression` trait
default of src/expression.rs lines 18-20 is inverted: it returns true on
the empty List and false on every non-empty List and every non-List. -/
theorem c1_is_truthy_code_bug :
    (∀ e : Expression, Expression.is_truthy e = false ↔ e = .list []) ∧
    LispExpression.is_truthy (.list []) = true ∧
    LispExpression.is_truthy (.number 1) = false ∧
    LispExpression.is_truthy (.list [.number 1]) = false ∧
    LispExpression.is_truthy (.builtinFunction "+") = false := by
  refine ⟨?_, rfl, rfl, rfl, rfl⟩
  intro e
  cases e with
  | list es => cases es <;> simp [Expression.is_truthy]
  | symbol s => simp [Expression.is_truthy]
  | number q => simp [Expression.is_truthy]
  | builtinFunction n => simp [Expression.is_truthy]
  | builtinMacr n => simp [Expression.is_truthy]
  | lambda ps body env => simp [Expression.is_truthy]
  | macr ps body env => simp [Expression.is_truthy]

/-- Claim C5 (code bug): the tokenizer emits a `;` comment run as an
ordinary token (here `";c"`), so it does reach the Parser: `5` evaluates to
`Number 5` but `5 ;c` fails with "Extra tokens in line", and a lone comment
`;x` parses as the Symbol `;x`. -/
theorem c5_comment_tokens_code_bug :
    (tokenize "5 ;c").map Token.value = ["5", ";c"] ∧
    (tokenize "5 ;c").map Token.position = [0, 2] ∧
    (evaluate Expression.is_truthy 9 "5" stdEnv).1 = .ok (.number 5) ∧
    (evaluate Expression.is_truthy 9 "5 ;c" stdEnv).1 = .error "Extra tokens in line" ∧
    parseF 9 (tokenize ";x") = .ok (.symbol ";x", []) :=
  ⟨rfl, rfl, rfl, rfl, rfl⟩

/-- Claim C7: evaluating a Symbol returns the bound value and fails with
the unbound-variable error naming the symbol exactly when it is absent;
every expression that is neither a List nor a Symbol evaluates to itself
and never fails. -/
theorem c7_eval_symbol_selfeval (tr : Expression → Bool) :
    (∀ (f : Nat) (s : String) (env : Environment) (v : Expression),
      Environment.get env s = some v →
      evalF tr (f+1) (.symbol s) env = (.ok v, env)) ∧
    (∀ (f : Nat) (s : String) (env : Environment),
      Environment.get env s = none →
      evalF tr (f+1) (.symbol s) env =
        (.error ("Variable `" ++ ("\x1b[0;32m" ++ s ++ "\x1b[0m") ++ "` unbound"), env)) ∧
    (∀ (f : Nat) (e : Expression) (env : Environment),
      isSelfEvaluating e = true → evalF tr (f+1) e env = (.ok e, env)) := by
  refine ⟨?_, ?_, ?_⟩
  · intro f s env v h
    simp [evalF, h]
  · intro f s env h
    simp [evalF, h, symbolDisplay]
  · intro f e env h
    cases e <;> simp_all [isSelfEvaluating, evalF]

/-- Witness for C7 at concrete inputs: `y` bound to `Number 7` is looked
up; `zzz` is unbound in the empty environment and the error names it;
`Number 3` is self-evaluating. -/
theorem c7_eval_symbol_selfeval_witness :
    evalF Expression.is_truthy 1 (.symbol "y") [("y", .number 7)] = (.ok (.number 7), [("y", .number 7)]) ∧
    evalF Expression.is_truthy 1 (.symbol "zzz") [] =
      (.error ("Variable `" ++ ("\x1b[0;32m" ++ "zzz" ++ "\x1b[0m") ++ "` unbound"), []) ∧
    evalF Expression.is_truthy 1 (.number 3) [] = (.ok (.number 3), []) :=
  ⟨(c7_eval_symbol_selfeval Expression.is_truthy).1 0 "y" [("y", .number 7)] (.number 7) rfl,
   (c7_eval_symbol_selfeval Expression.is_truthy).2.1 0 "zzz" [] rfl,
   (c7_eval_symbol_selfeval Expression.is_truthy).2.2 0 (.number 3) [] rfl⟩

/-- Claim C8: `define` validates before mutating: any argument count other
than two, or a non-Symbol first argument, returns an error with the caller
environment unchanged; a Symbol and a value bind the symbol in the caller
environment and return the bound value. -/
theorem c8_define_validates :
    (∀ (args : List Expression) (env : Environment), args.length ≠ 2 →
      Builtins.define args env = (.error "Define requires two arguments", env)) ∧
    (∀ (a b : Expression) (env : Environment), isSymbolE a = false →
      Builtins.define [a, b] env =
        (.error (ctxPrefix "First argument to define should be a symbol"
          (typeErrMsg "symbol" (variantName a))), env)) ∧
    (∀ (s : String) (b : Expression) (env : Environment),
      Builtins.define [.symbol s, b] env = (.ok b, Environment.set env s b)) := by
  refine ⟨?_, ?_, ?_⟩
  · intro args env h
    match args with
    | [] => rfl
    | [_] => rfl
    | [_, _] => simp at h
    | _ :: _ :: _ :: _ => rfl
  · intro a b env h
    cases a <;> simp_all [isSymbolE, Builtins.define]
  · intro s b env
    simp [Builtins.define, Environment.set, Environment.get]

/-- Witness for C8 at concrete inputs: one argument is rejected with the
environment untouched, a Number first argument likewise, and binding `a`
to `Number 4` succeeds, returning the value. -/
theorem c8_define_validates_witness :
    Builtins.define [.number 4] [] = (.error "Define requires two arguments", []) ∧
    Builtins.define [.number 4, .number 5] [] =
      (.error (ctxPrefix "First argument to define should be a symbol"
        (typeErrMsg "symbol" (variantName (.number 4)))), []) ∧
    Builtins.define [.symbol "a", .number 4] [] = (.ok (.number 4), [("a", .number 4)]) :=
  ⟨c8_define_validates.1 [.number 4] [] (by decide),
   c8_define_validates.2.1 (.number 4) (.number 5) [] rfl,
   c8_define_validates.2.2 "a" (.number 4) []⟩

/-- Claim C9: a copy of an Environment is independent — a `set` on the copy
leaves every other binding readable through the original unchanged (and
conversely, a copy being the same pure value); consequently a Lambda that
captured an environment before a later define of a new name does not see
that name during its calls: calling `λ () name` against a caller
environment where `name` was bound after capture still fails unbound, and
the three-step program `(define ' f (λ () x))`, `(define ' x 5)`, `(f)`
ends with an unbound-`x` error even though the second define succeeded. -/
theorem c9_env_copy_and_closure :
    (∀ (env : Environment) (s t : String) (v : Expression), t ≠ s →
      Environment.get (Environment.set (Environment.clone env) s v) t = Environment.get env t) ∧
    (∀ (env : Environment) (s : String) (v : Expression),
      Environment.get (Environment.set (Environment.clone env) s v) s = some v) ∧
    (∀ env : Environment, Environment.clone env = env) ∧
    (∀ (tr : Expression → Bool) (g : Nat) (name : String) (v : Expression) (env cenv : Environment),
      Environment.get cenv name = none →
      (callF (evalF tr (g+1)) tr (.lambda [] (.symbol name) cenv) [] (Environment.set env name v)).1 =
        .error ("Variable `" ++ symbolDisplay name ++ "` unbound")) ∧
    ((evaluate Expression.is_truthy 99 "(define \x27 x 5)"
        (evaluate Expression.is_truthy 99 "(define \x27 f (λ () x))" stdEnv).2).1 = .ok (.number 5) ∧
     (evaluate Expression.is_truthy 99 "(f)"
        (evaluate Expression.is_truthy 99 "(define \x27 x 5)"
          (evaluate Expression.is_truthy 99 "(define \x27 f (λ () x))" stdEnv).2).2).1 =
        .error (ctxPrefix "Could not evaluate input (f)"
          ("Variable `" ++ symbolDisplay "x" ++ "` unbound"))) := by
  refine ⟨?_, ?_, fun _ => rfl, ?_, rfl, rfl⟩
  · intro env s t v h
    simp [Environment.clone, Environment.set, Environment.get, Ne.symm h]
  · intro env s v
    simp [Environment.clone, Environment.set, Environment.get]
  · intro tr g name v env cenv h
    simp [callF, lambdaCall, evalArgsGo, withCtxR, withCtxE, bindAll, Environment.clone, evalF, h]

/-- Claim C2: the Macro calling protocol — more arguments than parameters
fails; fewer returns a Macro over the unconsumed parameter suffix whose
environment is the captured copy pre-seeded with the unevaluated argument
bindings; exactly enough binds the arguments unevaluated, evaluates the
body in that macro environment to an expansion, and the call's result is
the second evaluation of that expansion in the caller's environment. -/
theorem c2_macr_call_protocol
    (ev : Expression → Environment → Except String Expression × Environment)
    (ps : List String) (body : Expression) (cenv : Environment)
    (args : List Expression) (env : Environment) :
    (args.length > ps.length →
      macrCall ev ps body cenv args env = (.error "Too many arguments to lambda", env)) ∧
    (args.length < ps.length →
      macrCall ev ps body cenv args env =
        (.ok (.macr (ps.drop args.length) body (bindAll (Environment.clone cenv) (ps.zip args))), env)) ∧
    (args.length = ps.length →
      ∀ (expansion : Expression) (menv2 : Environment),
        ev body (bindAll (Environment.clone cenv) (ps.zip args)) = (.ok expansion, menv2) →
        macrCall ev ps body cenv args env = ev expansion env) := by
  refine ⟨?_, ?_, ?_⟩
  · intro h
    simp [macrCall, h]
  · intro h
    have hng : ¬ args.length > ps.length := by omega
    simp [macrCall, hng, h]
  · intro h expansion menv2 hev
    have hng : ¬ args.length > ps.length := by omega
    have hnl : ¬ args.length < ps.length := by omega
    simp [macrCall, hng, hnl, hev, withCtxR, withCtxE]

/-- Witness for C2 at concrete inputs: the macro `μ (x) x` applied to the
expression `(+ 1 2)` binds it unevaluated, expands to it, and hands it to
the caller-environment evaluation; and applied to no arguments it curries
to an unchanged Macro. -/
theorem c2_macr_call_protocol_witness :
    macrCall (evalF Expression.is_truthy 9) ["x"] (.symbol "x") []
      [.list [.symbol "+", .number 1, .number 2]] [] =
      evalF Expression.is_truthy 9 (.list [.symbol "+", .number 1, .number 2]) [] ∧
    macrCall (evalF Expression.is_truthy 9) ["x"] (.symbol "x") [] [] [] =
      (.ok (.macr ["x"] (.symbol "x") []), []) :=
  ⟨(c2_macr_call_protocol (evalF Expression.is_truthy 9) ["x"] (.symbol "x") []
      [.list [.symbol "+", .number 1, .number 2]] []).2.2 rfl
      (.list [.symbol "+", .number 1, .number 2])
      [("x", .list [.symbol "+", .number 1, .number 2])] rfl,
   (c2_macr_call_protocol (evalF Expression.is_truthy 9) ["x"] (.symbol "x") [] [] []).2.1
      (by decide)⟩

/-- Claim C3: the Lambda calling protocol — the arguments are evaluated
first, eagerly, in the caller's environment (a failure there aborts the
call with the arguments context); then too many evaluated arguments fail,
fewer return a curried Lambda over the captured copy holding the bindings
made so far, and exactly enough bind every parameter into the captured copy
and evaluate the body there, that result being the call's result (the
caller keeps the post-argument environment). -/
theorem c3_lambda_call_protocol
    (ev : Expression → Environment → Except String Expression × Environment)
    (ps : List String) (body : Expression) (cenv : Environment)
    (args : List Expression) (env : Environment) :
    (∀ (m : String) (envp : Environment),
      evalArgsGo ev args 1 env = (.error m, envp) →
      lambdaCall ev ps body cenv args env =
        (.error (ctxPrefix ("Could not evaluate arguments to " ++ displayExpr (.lambda ps body cenv)) m),
         envp)) ∧
    (∀ (vals : List Expression) (env2 : Environment),
      evalArgsGo ev args 1 env = (.ok vals, env2) →
      (args.length > ps.length →
        lambdaCall ev ps body cenv args env = (.error "Too many arguments to lambda", env2)) ∧
      (args.length < ps.length →
        lambdaCall ev ps body cenv args env =
          (.ok (.lambda (ps.drop args.length) body (bindAll (Environment.clone cenv) (ps.zip vals))),
           env2)) ∧
      (args.length = ps.length →
        ∀ (r : Except String Expression) (envb : Environment),
          ev body (bindAll (Environment.clone cenv) (ps.zip vals)) = (r, envb) →
          lambdaCall ev ps body cenv args env = (r, env2))) := by
  constructor
  · intro m envp h
    simp [lambdaCall, h, withCtxR, withCtxE, ctxPrefix]
  · intro vals env2 h
    have hlen := evalArgsGo_length ev args 1 env vals env2 h
    refine ⟨?_, ?_, ?_⟩
    · intro hgt
      have hv : vals.length > ps.length := by omega
      simp [lambdaCall, h, withCtxR, withCtxE, hv]
    · intro hlt
      have h1 : ¬ ps.length < args.length := by omega
      simp [lambdaCall, h, withCtxR, withCtxE, hlen, h1, hlt]
    · intro heq r envb hev
      have h1 : ¬ vals.length > ps.length := by omega
      have h2 : ¬ vals.length < ps.length := by omega
      simp [lambdaCall, h, withCtxR, withCtxE, h1, h2, hev]

/-- Witness for C3 at concrete inputs, the spec's currying shape: a
two-parameter lambda applied to one evaluated argument yields a Lambda with
remaining parameter `b` whose environment holds `a`; applying that result
to the second argument evaluates the body in the seeded environment. -/
theorem c3_lambda_call_protocol_witness :
    lambdaCall (evalF Expression.is_truthy 5) ["a", "b"] (.symbol "b") stdEnv [.number 1] stdEnv =
      (.ok (.lambda ["b"] (.symbol "b")
        (Environment.set (Environment.clone stdEnv) "a" (.number 1))), stdEnv) ∧
    lambdaCall (evalF Expression.is_truthy 5) ["b"] (.symbol "b")
      (Environment.set (Environment.clone stdEnv) "a" (.number 1)) [.number 2] stdEnv =
      (.ok (.number 2), stdEnv) :=
  ⟨((c3_lambda_call_protocol (evalF Expression.is_truthy 5) ["a", "b"] (.symbol "b") stdEnv
      [.number 1] stdEnv).2 [.number 1] stdEnv rfl).2.1 (by decide),
   ((c3_lambda_call_protocol (evalF Expression.is_truthy 5) ["b"] (.symbol "b")
      (Environment.set (Environment.clone stdEnv) "a" (.number 1)) [.number 2] stdEnv).2
      [.number 2] stdEnv rfl).2.2 rfl (.ok (.number 2))
      (Environment.set (Environment.set (Environment.clone stdEnv) "a" (.number 1)) "b" (.number 2)) rfl⟩

/-- Claim C4: `cond` evaluates conditions left to right in the caller
environment and returns the evaluated consequence of the first truthy one;
with none truthy, an odd argument count evaluates and returns the trailing
default and an even count returns the empty List.  The loop equations hold
for every evaluator and truthiness function (the source is generic in the
expression type); the concrete runs use `Expression::is_truthy`, the
truthiness the claim describes (see C1 for the inverted trait default):
`cond` over two falsy pairs returns the default `99` when present and the
empty list when not. -/
theorem c4_cond_protocol
    (ev : Expression → Environment → Except String Expression × Environment)
    (tr : Expression → Bool) :
    (∀ (i : Nat) (env : Environment),
      Builtins.condLoop ev tr [] i env = (.ok (.list []), env)) ∧
    (∀ (d : Expression) (i : Nat) (env : Environment) (v : Expression) (env2 : Environment),
      ev d env = (.ok v, env2) →
      Builtins.condLoop ev tr [d] i env = (.ok v, env2)) ∧
    (∀ (c q : Expression) (rest : List Expression) (i : Nat) (env : Environment)
        (cv : Expression) (env1 : Environment) (v : Expression) (env2 : Environment),
      ev c env = (.ok cv, env1) → tr cv = true → ev q env1 = (.ok v, env2) →
      Builtins.condLoop ev tr (c :: q :: rest) i env = (.ok v, env2)) ∧
    (∀ (c q : Expression) (rest : List Expression) (i : Nat) (env : Environment)
        (cv : Expression) (env1 : Environment),
      ev c env = (.ok cv, env1) → tr cv = false →
      Builtins.condLoop ev tr (c :: q :: rest) i env = Builtins.condLoop ev tr rest (i+1) env1) ∧
    (∀ (args : List Expression) (env : Environment),
      applyBuiltinMacr ev tr "cond" args env = Builtins.condLoop ev tr args 1 env) ∧
    (evaluate Expression.is_truthy 99 "(cond \x27 () 1 \x27 () 2 99)" stdEnv).1 = .ok (.number 99) ∧
    (evaluate Expression.is_truthy 99 "(cond \x27 () 1 \x27 () 2)" stdEnv).1 = .ok (.list []) := by
  refine ⟨fun i env => rfl, ?_, ?_, ?_, fun args env => rfl, rfl, rfl⟩
  · intro d i env v env2 h
    simp [Builtins.condLoop, h, withCtxR, withCtxE]
  · intro c q rest i env cv env1 v env2 hc htr hq
    simp [Builtins.condLoop, hc, htr, hq, withCtxR, withCtxE]
  · intro c q rest i env cv env1 hc htr
    simp [Builtins.condLoop, hc, htr, withCtxR, withCtxE]

/-- Witness for C4's hypothesis-bearing loop equations at concrete inputs:
a truthy first condition returns its consequence; a falsy one steps to the
next pair; a lone default is evaluated and returned. -/
theorem c4_cond_protocol_witness :
    Builtins.condLoop (evalF Expression.is_truthy 3) Expression.is_truthy
      [.number 7, .number 1] 1 [] = (.ok (.number 1), []) ∧
    Builtins.condLoop (evalF Expression.is_truthy 3) Expression.is_truthy
      [.list [.symbol "\x27", .list []], .number 1, .number 2] 1 stdEnv =
      Builtins.condLoop (evalF Expression.is_truthy 3) Expression.is_truthy [.number 2] 2 stdEnv ∧
    Builtins.condLoop (evalF Expression.is_truthy 3) Expression.is_truthy
      [.number 2] 2 stdEnv = (.ok (.number 2), stdEnv) :=
  ⟨(c4_cond_protocol (evalF Expression.is_truthy 3) Expression.is_truthy).2.2.1
      (.number 7) (.number 1) [] 1 [] (.number 7) [] (.number 1) [] rfl rfl rfl,
   (c4_cond_protocol (evalF Expression.is_truthy 3) Expression.is_truthy).2.2.2.1
      (.list [.symbol "\x27", .list []]) (.number 1) [.number 2] 1 stdEnv (.list []) stdEnv
      rfl rfl,
   (c4_cond_protocol (evalF Expression.is_truthy 3) Expression.is_truthy).2.1
      (.number 2) 2 stdEnv (.number 2) stdEnv rfl⟩

/-- Claim C6: after a parenthesized list is collected the parser rewrites
left to right — a quote-prefix element is spliced with the immediately
following element into the 2-element sub-list, a quote with nothing
following fails, as do a close token with no open and a stream ending
mid-list; concretely, `(a ' b c)` parses to `(a (' b) c)`, `(a ')` is a
trailing-quote error, `(a` runs out of tokens inside the list context. -/
theorem c6_parse_quote_rewrite :
    (∀ (x : Expression) (rest : List Expression) (es : List Expression),
      quoteRewrite rest = .ok es →
      quoteRewrite (quoteExpr :: x :: rest) = .ok (.list [quoteExpr, x] :: es)) ∧
    (∀ (e : Expression) (rest : List Expression) (es : List Expression),
      exprEq e quoteExpr = false → quoteRewrite rest = .ok es →
      quoteRewrite (e :: rest) = .ok (e :: es)) ∧
    quoteRewrite [quoteExpr] = .error "Trailing quote in input" ∧
    (∀ x : Expression, quoteRewrite [x, quoteExpr] =
      if exprEq x quoteExpr then .ok [.list [x, quoteExpr]]
      else .error "Trailing quote in input") ∧
    (∀ (f : Nat) (t : Token) (rest : List Token), t.value = ")" →
      parseF (f+1) (t :: rest) = .error ("Unexpected close bracket at " ++ toString t.position)) ∧
    (∀ f : Nat, parseF (f+1) ([] : List Token) = .error "Ran out of tokens") ∧
    parseF 99 (tokenize "(a \x27 b c)") =
      .ok (.list [.symbol "a", .list [quoteExpr, .symbol "b"], .symbol "c"], []) ∧
    parseF 99 (tokenize "(a \x27)") = .error "Trailing quote in input" ∧
    parseF 9 (tokenize "(a") =
      .error (ctxPrefix "While parsing list that began at 0" "Ran out of tokens") := by
  refine ⟨?_, ?_, rfl, ?_, ?_, fun f => rfl, rfl, rfl, rfl⟩
  · intro x rest es h
    have hq : exprEq quoteExpr quoteExpr = true := rfl
    simp [quoteRewrite, hq, h]
  · intro e rest es hne h
    unfold quoteRewrite
    rw [hne]
    simp [h]
  · intro x
    cases hx : exprEq x quoteExpr with
    | true => simp [quoteRewrite, hx]
    | false =>
      unfold quoteRewrite
      rw [hx]
      rw [show quoteRewrite [quoteExpr] = .error "Trailing quote in input" from rfl]
      rfl
  · intro f t rest h
    simp only [parseF]
    rw [if_neg (by rw [h]; decide), if_pos h]

/-- Witness for C6's hypothesis-bearing conjuncts at concrete inputs: the
splice at the head of a collected element list, the same splice after a
non-quote element, and the unmatched-close error of the parser. -/
theorem c6_parse_quote_rewrite_witness :
    quoteRewrite [quoteExpr, .symbol "b", .symbol "c"] =
      .ok [.list [quoteExpr, .symbol "b"], .symbol "c"] ∧
    quoteRewrite [.symbol "a", quoteExpr, .symbol "b"] =
      .ok [.symbol "a", .list [quoteExpr, .symbol "b"]] ∧
    parseF 3 [{ value := ")", position := 5 }] = .error ("Unexpected close bracket at " ++ toString 5) :=
  ⟨c6_parse_quote_rewrite.1 (.symbol "b") [.symbol "c"] [.symbol "c"] rfl,
   c6_parse_quote_rewrite.2.1 (.symbol "a") [quoteExpr, .symbol "b"]
     [.list [quoteExpr, .symbol "b"]] rfl rfl,
   c6_parse_quote_rewrite.2.2.2.2.1 2 { value := ")", position := 5 } [] rfl⟩

/-- Claim C10 (amended): a List value called with more than one argument
errors; a single non-Number argument errors (arguments reach `List::call`
unevaluated, so even an argument that evaluates to an in-range Number is
rejected); the Number branch applies the f64 range guard
`n < 0 || n > len - 1` — `listCall` realises its finite restriction
(bridge conjunct) — so a finite `q` with `0 ≤ q ≤ len - 1` returns the
element at the floor index, a finite out-of-range `q` and each infinity
error, and NaN, which lies in no range, fails both guard comparisons, is
cast to index 0 and succeeds on a nonempty List; on the guarded
non-negative numbers the `as usize` cast is the floor. -/
theorem c10_list_call_amended :
    (∀ (l args : List Expression) (env : Environment), args.length > 1 →
      listCall l args env = (.error "Cannot index array using more than one index", env)) ∧
    (∀ (l : List Expression) (a : Expression) (env : Environment), isNumberE a = false →
      listCall l [a] env =
        (.error ("Can only index into list using numbers, not " ++ displayExpr a), env)) ∧
    (∀ (l : List Expression) (q : ℚ) (env : Environment),
      listCall l [.number q] env = listCallNum l (.finite q) env) ∧
    (∀ (l : List Expression) (q : ℚ) (env : Environment) (v : Expression),
      0 ≤ q → q ≤ (l.length : ℚ) - 1 → l.get? (ratToUsize q) = some v →
      listCallNum l (.finite q) env = (.ok v, env)) ∧
    (∀ (l : List Expression) (q : ℚ) (env : Environment),
      q < 0 ∨ q > (l.length : ℚ) - 1 →
      listCallNum l (.finite q) env = (.error (listCallMsgOobF l.length (.finite q)), env)) ∧
    (∀ (l : List Expression) (env : Environment),
      listCallNum l .posInf env = (.error (listCallMsgOobF l.length .posInf), env) ∧
      listCallNum l .negInf env = (.error (listCallMsgOobF l.length .negInf), env)) ∧
    (∀ (n : RustF64) (q : ℚ),
      RustF64.le (.finite q) .nan = false ∧ RustF64.le .nan n = false) ∧
    (∀ (l : List Expression) (env : Environment) (v : Expression),
      l.get? 0 = some v → listCallNum l .nan env = (.ok v, env)) ∧
    (∀ q : ℚ, 0 ≤ q → (ratToUsize q : ℤ) = ⌊q⌋) := by
  refine ⟨?_, ?_, ?_, ?_, ?_, fun l env => ⟨rfl, rfl⟩, fun n q => ⟨rfl, by cases n <;> rfl⟩, ?_, ?_⟩
  · intro l args env h
    simp [listCall, h]
  · intro l a env h
    cases a <;> simp_all [isNumberE, listCall]
  · intro l q env
    by_cases h1 : q < 0
    · simp [listCall, listCallNum, RustF64.lt, RustF64.gt, h1, listCallMsgOob, listCallMsgOobF,
        numberDisplay, numberDisplayF, ratDisplayF]
    · by_cases h2 : q > (l.length : ℚ) - 1
      · simp [listCall, listCallNum, RustF64.lt, RustF64.gt, h1, h2, listCallMsgOob,
          listCallMsgOobF, numberDisplay, numberDisplayF, ratDisplayF]
      · simp [listCall, listCallNum, RustF64.lt, RustF64.gt, RustF64.toUsize, h1, h2]
  · intro l q env v h1 h2 h3
    have hn1 : ¬ q < 0 := not_lt.mpr h1
    have hn2 : ¬ (l.length : ℚ) - 1 < q := not_lt.mpr h2
    rw [List.get?_eq_getElem?] at h3
    simp [listCallNum, RustF64.lt, RustF64.gt, RustF64.toUsize, hn1, hn2, h3]
  · intro l q env h
    rcases h with h | h
    · simp [listCallNum, RustF64.lt, RustF64.gt, h]
    · simp [listCallNum, RustF64.lt, RustF64.gt, h]
  · intro l env v h
    have g1 : RustF64.lt .nan (.finite 0) = false := rfl
    have g2 : RustF64.gt .nan (.finite ((l.length : ℚ) - 1)) = false := rfl
    have g3 : RustF64.toUsize .nan = 0 := rfl
    rw [List.get?_eq_getElem?] at h
    simp [listCallNum, g1, g2, g3, h]
  · intro q hq
    have hnum : 0 ≤ q.num := Rat.num_nonneg.mpr hq
    have hdiv : 0 ≤ q.num / (q.den : ℤ) := Int.ediv_nonneg hnum (Int.natCast_nonneg _)
    show ((q.num / (q.den : ℤ)).toNat : ℤ) = ⌊q⌋
    rw [Rat.floor_def]
    exact Int.toNat_of_nonneg hdiv

/-- Counterexample for C10 as stated, refuting both of its clauses: with
`x` bound to `Number 0`, the single argument `x` evaluates to the in-range
Number 0 (the length-2 list has range `0 ≤ q ≤ 1`), yet calling the list
on `x` does not return the element — `List::call` receives its argument
unevaluated and rejects the non-Number; and NaN, a Number outside the
range (`0 ≤ NaN` is false on f64), succeeds instead of erroring: both
guard comparisons are false on NaN, `NaN as usize` is 0, and the call
returns element 0. -/
theorem c10_list_call_counterexample :
    (evalF Expression.is_truthy 1 (.symbol "x") [("x", .number 0)]).1 = .ok (.number 0) ∧
    (0 : ℚ) ≤ 0 ∧
    (0 : ℚ) ≤ (([Expression.number 10, Expression.number 20].length : ℚ) - 1) ∧
    (listCall [.number 10, .number 20] [.symbol "x"] [("x", .number 0)]).1 =
      .error ("Can only index into list using numbers, not " ++ displayExpr (.symbol "x")) ∧
    RustF64.le (.finite 0) .nan = false ∧
    RustF64.le .nan (.finite (([Expression.number 10, Expression.number 20].length : ℚ) - 1)) = false ∧
    listCallNum [.number 10, .number 20] .nan [] = (.ok (.number 10), []) := by
  refine ⟨rfl, le_refl 0, by norm_num, rfl, rfl, rfl, rfl⟩

/-- Witness for C10's amended theorem at concrete inputs: the bridge at
the literal Number 0, indexing the two-element list at finite 0 and 1,
the range error at finite 2, and the NaN success at element 0. -/
theorem c10_list_call_amended_witness :
    listCall [.number 10, .number 20] [.number 0] [] =
      listCallNum [.number 10, .number 20] (.finite 0) [] ∧
    listCallNum [.number 10, .number 20] (.finite 0) [] = (.ok (.number 10), []) ∧
    listCallNum [.number 10, .number 20] (.finite 1) [] = (.ok (.number 20), []) ∧
    listCallNum [.number 10, .number 20] (.finite 2) [] =
      (.error (listCallMsgOobF 2 (.finite 2)), []) ∧
    listCallNum [.number 10, .number 20] .nan [] = (.ok (.number 10), []) :=
  ⟨c10_list_call_amended.2.2.1 [.number 10, .number 20] 0 [],
   c10_list_call_amended.2.2.2.1 [.number 10, .number 20] 0 [] (.number 10)
      (le_refl 0) (by norm_num) rfl,
   c10_list_call_amended.2.2.2.1 [.number 10, .number 20] 1 [] (.number 20)
      (by norm_num) (by norm_num) rfl,
   c10_list_call_amended.2.2.2.2.1 [.number 10, .number 20] 2 [] (by norm_num),
   c10_list_call_amended.2.2.2.2.2.2.2.1 [.number 10, .number 20] [] (.number 10) rfl⟩

/-- Witness for C9's hypothesis-bearing conjuncts at concrete inputs:
setting `b` on a copy leaves `a` readable through the original, and a
zero-parameter lambda that captured the root environment (which does not
bind `x`) still fails unbound on `x` when called against a caller
environment where `x` was bound after the capture. -/
theorem c9_env_copy_and_closure_witness :
    Environment.get (Environment.set (Environment.clone [("a", .number 1)]) "b" (.number 2)) "a" =
      Environment.get [("a", Expression.number 1)] "a" ∧
    (callF (evalF Expression.is_truthy 1) Expression.is_truthy
      (.lambda [] (.symbol "x") stdEnv) [] (Environment.set stdEnv "x" (.number 5))).1 =
      .error ("Variable `" ++ symbolDisplay "x" ++ "` unbound") :=
  ⟨c9_env_copy_and_closure.1 [("a", .number 1)] "b" "a" (.number 2) (by decide),
   c9_env_copy_and_closure.2.2.2.1 Expression.is_truthy 0 "x" (.number 5) stdEnv stdEnv rfl⟩
